import Mathlib

/-!
# FinTrack — verification of the notification-extraction core

Shallow embedding of `src/backend/server.py` (FinTrack): the SMS
transaction extractor (`parse_sms_transaction`, `SMS_PATTERNS`), the
merchant normalizer, the keyword categorizer
(`auto_categorize_transaction`), and the payment webhook handler
(`payment_webhook`, `PAYMENT_SERVICES`).

Modelling conventions:
* Python strings are Lean `String` / `List Char`; the Python regular
  expressions of `SMS_PATTERNS` are embedded as terms of a small `Regex`
  type together with a backtracking matcher (`matchR` / `searchR`) that
  follows Python `re.search` semantics (leftmost start position, ordered
  alternation, greedy / lazy quantifiers, `re.IGNORECASE` via
  lower-casing both sides).  The five patterns only ever quantify over
  single-character classes (`\d`, `\s`, `.`), which the `Regex` type
  reflects, making the matcher structurally terminating.
* `float(...)` applied to a captured amount group is modelled exactly by
  rationals (`ℚ`): every amount that actually occurs in the patterns is a
  digit run with an optional two-digit fraction, which `ℚ` represents
  without rounding.
* `datetime.now().strftime("%Y-%m-%d")` and the Pydantic-generated
  `id` / `created_at` defaults are nondeterministic inputs and are passed
  in as explicit parameters (`today`, `newId`, `createdAt`).
* Exceptions are modelled with `Option` / `Except`: the blanket
  `try ... except Exception` blocks of the source become the
  corresponding total wrappers.
-/

namespace FinTrack

/-! ## Character classes and Python-style string helpers -/

/-- Python's `\s` (ASCII part, the whitespace set also used by `str.strip`). -/
def isWS (c : Char) : Bool :=
  c = ' ' || c = '\t' || c = '\n' || c = '\r' || c = '\x0b' || c = '\x0c'

/-- Python `str.lower` (ASCII). -/
def lowerStr (s : String) : String := ⟨s.data.map Char.toLower⟩

/-- Python's substring test `needle in hay` (on character lists). -/
def subOf (needle : List Char) : List Char → Bool
  | [] => needle.isEmpty
  | c :: rest => needle.isPrefixOf (c :: rest) || subOf needle rest

/-- Python `str.strip()` on a character list: drop leading whitespace,
then drop trailing whitespace. -/
def pyStrip (l : List Char) : List Char :=
  (((l.dropWhile isWS).reverse).dropWhile isWS).reverse

/-- Python `re.sub(r'\s+', ' ', s)`: every maximal run of whitespace
characters becomes a single space. -/
def collapseWS : List Char → List Char
  | [] => []
  | [c] => if isWS c then [' '] else [c]
  | a :: b :: rest =>
      if isWS a && isWS b then collapseWS (b :: rest)
      else (if isWS a then ' ' else a) :: collapseWS (b :: rest)

/-- Python `s.replace('*', '')`. -/
def removeStar (l : List Char) : List Char := l.filter (fun c => c ≠ '*')

/-- The merchant cleanup of `parse_sms_transaction` lines 115–116:
`re.sub(r'\s+', ' ', m)` then `.replace('*', '').strip()`. -/
def normalizeMerchant (s : String) : String :=
  ⟨pyStrip (removeStar (collapseWS s.data))⟩

/-! ## A backtracking regex matcher (Python `re` semantics)

The five patterns of `SMS_PATTERNS` use: case-insensitive literals,
the classes `\d`, `\s`, `.` (any char but newline), ordered alternation
`(?:a|b)`, greedy `?` and `*`/`+` over a class, lazy `+?` over a class,
two capture groups, and the `$` anchor.  The quantified sub-expressions
are always single-character classes, so iteration is a loop over how many
class characters to consume, tried longest-first (greedy) or
shortest-first (lazy), with full backtracking through the continuation. -/

inductive CharCls
  | digit
  | space
  | dot
deriving DecidableEq

def clsMatch : CharCls → Char → Bool
  | .digit, c => c.isDigit
  | .space, c => isWS c
  | .dot, c => c ≠ '\n'

inductive Regex
  | eps
  | lit : List Char → Regex        -- literal, stored lower-case
  | cls : CharCls → Regex
  | seq : Regex → Regex → Regex
  | alt : Regex → Regex → Regex    -- ordered alternation, left first
  | opt : Regex → Regex            -- greedy `?`
  | plusG : CharCls → Regex        -- greedy `+` over a class
  | plusL : CharCls → Regex        -- lazy `+?` over a class
  | starG : CharCls → Regex        -- greedy `*` over a class
  | grp : Nat → Regex → Regex      -- capture group 1 or 2
  | eos                            -- `$`
deriving DecidableEq

/-- The two capture groups (`match.group(1)`, `match.group(2)`). -/
abbrev Caps := Option (List Char) × Option (List Char)

def setCap (caps : Caps) (n : Nat) (v : List Char) : Caps :=
  if n = 1 then (some v, caps.2) else (caps.1, some v)

/-- Case-insensitive literal match at the front; returns the rest. -/
def litMatch : List Char → List Char → Option (List Char)
  | [], s => some s
  | _ :: _, [] => none
  | c :: cs, x :: xs => if x.toLower = c then litMatch cs xs else none

/-- Length of the maximal prefix of characters of class `c`. -/
def runLen (c : CharCls) : List Char → Nat
  | [] => 0
  | x :: xs => if clsMatch c x then runLen c xs + 1 else 0

/-- CPS backtracking matcher: `matchR r s caps k` matches `r` against a
prefix of `s`, calling `k` on the remaining input and captures; on
failure of the continuation it backtracks through the alternatives of
`r` in the order Python's engine explores them. -/
def matchR : Regex → List Char → Caps → (List Char → Caps → Option Caps) → Option Caps
  | .eps, s, caps, k => k s caps
  | .lit l, s, caps, k =>
      match litMatch l s with
      | some s' => k s' caps
      | none => none
  | .cls c, s, caps, k =>
      match s with
      | [] => none
      | x :: xs => if clsMatch c x then k xs caps else none
  | .seq a b, s, caps, k => matchR a s caps (fun s' caps' => matchR b s' caps' k)
  | .alt a b, s, caps, k => matchR a s caps k <|> matchR b s caps k
  | .opt a, s, caps, k => matchR a s caps k <|> k s caps
  | .plusG c, s, caps, k =>
      let n := runLen c s
      ((List.range n).map (fun i => n - i)).findSome? (fun j => k (s.drop j) caps)
  | .plusL c, s, caps, k =>
      let n := runLen c s
      ((List.range n).map (fun i => i + 1)).findSome? (fun j => k (s.drop j) caps)
  | .starG c, s, caps, k =>
      let n := runLen c s
      ((List.range (n + 1)).map (fun i => n - i)).findSome? (fun j => k (s.drop j) caps)
  | .grp nn a, s, caps, k =>
      matchR a s caps (fun s' caps' => k s' (setCap caps' nn (s.take (s.length - s'.length))))
  | .eos, s, caps, k =>
      match s with
      | [] => k s caps
      | _ :: _ => none

/-- `re.search`: try every start position left to right. -/
def searchAux (r : Regex) : List Char → Option Caps
  | [] => matchR r [] (none, none) (fun _ caps => some caps)
  | c :: rest =>
      matchR r (c :: rest) (none, none) (fun _ caps => some caps) <|> searchAux r rest

def searchR (r : Regex) (s : List Char) : Option Caps := searchAux r s

/-! ## The pattern table `SMS_PATTERNS` (server.py lines 83–89) -/

def litS (s : String) : Regex := .lit s.data

/-- `(\d+(?:\.\d{2})?)` — capture group 1, the amount. -/
def amountGrp : Regex :=
  .grp 1 (.seq (.plusG .digit) (.opt (.seq (litS ".") (.seq (.cls .digit) (.cls .digit)))))

/-- `(?:spent|debited)` -/
def verbSD : Regex := .alt (litS "spent") (litS "debited")

/-- `(?:spent|debited|paid)` -/
def verbSDP : Regex := .alt (litS "spent") (.alt (litS "debited") (litS "paid"))

/-- `(?:at|on)` -/
def prepAO : Regex := .alt (litS "at") (litS "on")

/-- `(?:at|on|to)` -/
def prepAOT : Regex := .alt (litS "at") (.alt (litS "on") (litS "to"))

/-- `(.+?)(?:\s+on|\s+UPI|\s+Card|\.|$)` — capture group 2, the merchant
fragment, lazily extended up to the first terminator. -/
def merchantTail : Regex :=
  .seq (.grp 2 (.plusL .dot))
    (.alt (.seq (.plusG .space) (litS "on"))
      (.alt (.seq (.plusG .space) (litS "upi"))
        (.alt (.seq (.plusG .space) (litS "card"))
          (.alt (litS ".") .eos))))

/-- The shared middle `<amount>.+?<verbs>.+?<preps>\s+<merchant tail>`. -/
def bankTail (verbs preps : Regex) : Regex :=
  .seq amountGrp
    (.seq (.plusL .dot)
      (.seq verbs
        (.seq (.plusL .dot)
          (.seq preps
            (.seq (.plusG .space) merchantTail)))))

def sbiP : Regex := .seq (litS "rs.") (bankTail verbSD prepAO)

def hdfcP : Regex := .seq (litS "rs") (.seq (.starG .space) (bankTail verbSD prepAO))

def iciciP : Regex := .seq (litS "rs.") (bankTail verbSD prepAO)

def axisP : Regex := .seq (litS "inr") (.seq (.starG .space) (bankTail verbSD prepAO))

/-- `(?:Rs\.?|INR)\s*` then the generic tail with `paid`/`to` added. -/
def genericP : Regex :=
  .seq (.alt (.seq (litS "rs") (.opt (litS "."))) (litS "inr"))
    (.seq (.starG .space) (bankTail verbSDP prepAOT))

/-- `SMS_PATTERNS` in dict insertion order. -/
def SMS_PATTERNS : List (String × Regex) :=
  [("sbi", sbiP), ("hdfc", hdfcP), ("icici", iciciP), ("axis", axisP), ("generic", genericP)]

/-! ## `parse_sms_transaction` (server.py lines 91–134) -/

/-- `float(...)` on a captured amount group: an unsigned decimal literal
(after stripping whitespace, as `float` does); anything else is a
`ValueError`, modelled as `none`.  Exact-rational model of the value. -/
def parseAmount (s : List Char) : Option ℚ :=
  let t := pyStrip s
  let intPart := t.takeWhile Char.isDigit
  let rest := t.dropWhile Char.isDigit
  if intPart.isEmpty then none
  else
    let iv : ℚ := (intPart.foldl (fun n c => n * 10 + (c.toNat - 48)) 0 : Nat)
    match rest with
    | [] => some iv
    | '.' :: fr =>
        if fr.isEmpty = false && fr.all Char.isDigit then
          some (iv + ((fr.foldl (fun n c => n * 10 + (c.toNat - 48)) 0 : Nat) : ℚ) / (10 ^ fr.length))
        else none
    | _ => none

structure Candidate where
  amount : ℚ
  description : String
  merchant : String
  category : String
  type : String
  date : String
  source : String
deriving DecidableEq

/-- `auto_categorize_transaction` (server.py lines 136–158). -/
def auto_categorize_transaction (merchant : String) : String :=
  let ml := (lowerStr merchant).data
  if ["swiggy", "zomato", "uber eats", "dominos", "pizza", "restaurant", "cafe",
      "food", "kitchen", "biryani"].any (fun kw => subOf kw.data ml) then "Food"
  else if ["uber", "ola", "rapido", "metro", "bus", "taxi", "petrol",
      "fuel"].any (fun kw => subOf kw.data ml) then "Transport"
  else if ["amazon", "flipkart", "myntra", "ajio", "shopping", "mall",
      "store"].any (fun kw => subOf kw.data ml) then "Shopping"
  else if ["electricity", "water", "gas", "internet", "mobile", "recharge",
      "bill"].any (fun kw => subOf kw.data ml) then "Bills"
  else "Others"

/-- The body of a successful `re.search` in the extraction loop (lines
111–129): read the two groups, parse the amount (a `ValueError` here is
caught by the enclosing handler, yielding `none` overall), strip and
normalize the merchant, categorize, and build the result dict. -/
def candidateOfMatch (caps : Caps) (today : String) : Option Candidate :=
  match caps.1, caps.2 with
  | some g1, some g2 =>
      match parseAmount g1 with
      | none => none
      | some amt =>
          let merchant := normalizeMerchant ⟨pyStrip g2⟩
          some { amount := amt
                 description := "Payment to " ++ merchant
                 merchant := merchant
                 category := auto_categorize_transaction merchant
                 type := "expense"
                 date := today
                 source := "sms" }
  | _, _ => none

/-- The `for pattern in patterns_to_try` loop (lines 108–129): first
successful search wins; a failed amount parse propagates as the handled
exception, i.e. the whole call returns `none`. -/
def tryPatterns : List Regex → List Char → String → Option Candidate
  | [], _, _ => none
  | p :: rest, msg, today =>
      match searchR p msg with
      | some caps => candidateOfMatch caps today
      | none => tryPatterns rest msg today

/-- Pattern selection (lines 97–106): when `sender` is truthy, every
table entry whose key occurs in the lower-cased sender, in declaration
order; the generic pattern is always appended last. -/
def patternsToTry (sender : Option String) : List Regex :=
  (match sender with
   | some snd =>
       if snd = "" then []
       else (SMS_PATTERNS.filter (fun kv => subOf kv.1.data (lowerStr snd).data)).map (·.2)
   | none => []) ++ [genericP]

/-- `parse_sms_transaction` (lines 91–134). -/
def parse_sms_transaction (message : String) (sender : Option String) (today : String) :
    Option Candidate :=
  tryPatterns (patternsToTry sender) (pyStrip message.data) today

/-! ## Spec-side definitions (for refinement claims)

These two definitions follow the wording of spec §4.1 and §4.4, to be
compared with the definitions translated from the source. -/

/-- Spec §4.1: if `sender` is provided, every rule whose bank key is a
case-insensitive substring of the sender, in table-declaration order,
followed unconditionally by the generic fallback rule appended last;
if `sender` is absent, only the generic fallback rule. -/
def specLookup (sender : Option String) : List Regex :=
  match sender with
  | none => [genericP]
  | some s =>
      (SMS_PATTERNS.filter (fun kv => subOf (lowerStr kv.1).data (lowerStr s).data)).map (·.2)
        ++ [genericP]

/-- The `CategoryRules` table of spec §3/§4.4, in declared order. -/
def CategoryRules : List (String × List String) :=
  [("Food", ["swiggy", "zomato", "uber eats", "dominos", "pizza", "restaurant", "cafe",
             "food", "kitchen", "biryani"]),
   ("Transport", ["uber", "ola", "rapido", "metro", "bus", "taxi", "petrol", "fuel"]),
   ("Shopping", ["amazon", "flipkart", "myntra", "ajio", "shopping", "mall", "store"]),
   ("Bills", ["electricity", "water", "gas", "internet", "mobile", "recharge", "bill"])]

/-- Spec §4.4: the first rule, in declared order, with any keyword
occurring as a substring of the lower-cased merchant wins; otherwise
`"Others"`. -/
def firstCategory (rules : List (String × List String)) (m : String) : String :=
  match rules with
  | [] => "Others"
  | r :: rest =>
      if r.2.any (fun kw => subOf kw.data (lowerStr m).data) then r.1
      else firstCategory rest m

def specCategorize (merchant : String) : String := firstCategory CategoryRules merchant

/-! ## The webhook path (`PAYMENT_SERVICES`, `payment_webhook`, lines 52–80 and 206–242) -/

structure ServiceConfig where
  name : String
  category : String
  url : String
  color : String
deriving DecidableEq

/-- `PAYMENT_SERVICES` (lines 61–80), in dict insertion order. -/
def PAYMENT_SERVICES : List (String × ServiceConfig) :=
  [("swiggy", ⟨"Swiggy", "Food", "https://www.swiggy.com", "#fc8019"⟩),
   ("zomato", ⟨"Zomato", "Food", "https://www.zomato.com", "#e23744"⟩),
   ("gpay", ⟨"Google Pay", "Transfer", "https://pay.google.com", "#4285f4"⟩)]

/-- `WebhookData` (lines 52–58).  `additional_data` is an opaque
pass-through dict the handler never reads and is omitted.  `amount` is
the payload float, modelled as an exact rational. -/
structure WebhookData where
  service : String
  transaction_id : String
  amount : ℚ
  merchant : String
  timestamp : String
deriving DecidableEq

structure HTTPException where
  status_code : Nat
  detail : String
deriving DecidableEq

/-- Starlette `HTTPException.__str__`, i.e. what `str(e)` produces when
the blanket handler formats a caught `HTTPException`. -/
def excStr (e : HTTPException) : String :=
  toString e.status_code ++ ": " ++ e.detail

/-- The `webhook_data` provenance block added to the stored dict
(lines 226–231). -/
structure WebhookMeta where
  service : String
  transaction_id : String
  merchant : String
  timestamp : String
deriving DecidableEq

/-- The stored transaction dict as read back from the collaborator
(`Transaction` fields of lines 31–38 plus the provenance block).  The
Pydantic-generated `id`/`created_at` defaults are the parameters
`newId`/`createdAt` of the handler. -/
structure StoredTransaction where
  id : String
  amount : ℚ
  description : String
  date : String
  category : String
  type : String
  created_at : String
  webhook_data : Option WebhookMeta
deriving DecidableEq

structure WebhookResponse where
  success : Bool
  message : String
  transaction : StoredTransaction
deriving DecidableEq

/-- The `try`-block body of `payment_webhook` (lines 209–240): unknown
service raises `HTTPException(400, ...)`; otherwise the transaction is
built, the provenance block attached, and a success response returned
(persistence is the external collaborator, modelled as identity). -/
def payment_webhook_try (service : String) (w : WebhookData)
    (today newId createdAt : String) : Except HTTPException WebhookResponse :=
  match PAYMENT_SERVICES.lookup service with
  | none => .error ⟨400, "Unsupported payment service"⟩
  | some cfg =>
      let t : StoredTransaction :=
        { id := newId
          amount := w.amount
          description := cfg.name ++ " payment to " ++ w.merchant
          date := today
          category := cfg.category
          type := "expense"
          created_at := createdAt
          webhook_data := some ⟨service, w.transaction_id, w.merchant, w.timestamp⟩ }
      .ok { success := true
            message := "Transaction created from " ++ cfg.name ++ " webhook"
            transaction := t }

/-- `payment_webhook` (lines 206–242): the whole body sits inside
`try ... except Exception as e: raise HTTPException(500, str(e))`.
`HTTPException` subclasses `Exception`, so the inner 400 raise is caught
here too and re-raised with status 500. -/
def payment_webhook (service : String) (w : WebhookData)
    (today newId createdAt : String) : Except HTTPException WebhookResponse :=
  match payment_webhook_try service w today newId createdAt with
  | .ok r => .ok r
  | .error e => .error ⟨500, excStr e⟩

/-! ## A pattern with a non-numeric amount group (for the malformed-amount claim)

The registry's own patterns all have `(\d+(?:\.\d{2})?)` as group 1,
which always parses, so the malformed-amount path cannot fire with
them.  The extraction loop itself (`tryPatterns`) is a function of an
arbitrary pattern list, and this pattern — group 1 is `(.+?)` — drives
the loop into that path. -/
def badAmountPat : Regex :=
  .seq (.grp 1 (.plusL .dot)) (.seq (litS " paid to ") (.grp 2 (.plusG .dot)))

/-- `NoRunWS l`: every whitespace character of `l` is a plain space and
no two adjacent characters are both whitespace — the invariant
established by `re.sub(r'\s+', ' ', ·)`. -/
def NoRunWS (l : List Char) : Prop :=
  (∀ c ∈ l, isWS c = true → c = ' ') ∧
  l.Chain' (fun a b => ¬(isWS a = true ∧ isWS b = true))

/-! ## General lemmas -/

theorem bool_and_false {x y : Bool} (h : ¬(x = true ∧ y = true)) : (x && y) = false := by
  rcases Bool.eq_false_or_eq_true x with hx | hx
  · rcases Bool.eq_false_or_eq_true y with hy | hy
    · exact absurd ⟨hx, hy⟩ h
    · simp [hy]
  · simp [hx]

theorem collapseWS_head (l : List Char) : ∀ a : Char,
    ∃ t, collapseWS (a :: l) = (if isWS a then ' ' else a) :: t := by
  induction l with
  | nil =>
      intro a
      by_cases h : isWS a = true <;> simp [collapseWS, h]
  | cons b rest ih =>
      intro a
      by_cases hab : isWS a = true ∧ isWS b = true
      · obtain ⟨t, ht⟩ := ih b
        refine ⟨t, ?_⟩
        simp [collapseWS, hab.1, hab.2, ht, if_pos hab.1]
      · refine ⟨collapseWS (b :: rest), ?_⟩
        rw [collapseWS, if_neg (by simp [bool_and_false hab])]

theorem NoRunWS_collapseWS (l : List Char) : NoRunWS (collapseWS l) := by
  induction l with
  | nil => exact ⟨by simp [collapseWS], by simp [collapseWS]⟩
  | cons a l ih =>
      cases l with
      | nil =>
          by_cases h : isWS a = true
          · refine ⟨?_, by simp [collapseWS, h]⟩
            intro c hc _
            simp [collapseWS, h] at hc
            simp [hc]
          · refine ⟨?_, by simp [collapseWS, h]⟩
            intro c hc hws
            simp [collapseWS, h] at hc
            subst hc
            exact absurd hws (by simp [h])
      | cons b rest =>
          by_cases hab : isWS a = true ∧ isWS b = true
          · have hrw : collapseWS (a :: b :: rest) = collapseWS (b :: rest) := by
              rw [collapseWS, if_pos (by simp [hab.1, hab.2])]
            rw [hrw]; exact ih
          · have hrw : collapseWS (a :: b :: rest) =
                (if isWS a then ' ' else a) :: collapseWS (b :: rest) := by
              rw [collapseWS, if_neg (by simp [bool_and_false hab])]
            rw [hrw]
            obtain ⟨t, ht⟩ := collapseWS_head rest b
            refine ⟨?_, ?_⟩
            · intro c hc hws
              rcases List.mem_cons.mp hc with rfl | hc'
              · by_cases h : isWS a = true
                · simp [h]
                · rw [if_neg h] at hws; exact absurd hws (by simp [h])
              · exact ih.1 c hc' hws
            · rw [List.chain'_cons']
              refine ⟨?_, ih.2⟩
              intro y hy
              rw [ht] at hy
              simp only [List.head?_cons, Option.mem_def, Option.some.injEq] at hy
              subst hy
              rintro ⟨hx, hy'⟩
              by_cases ha : isWS a = true
              · have hb : isWS b = false := by
                  rcases Bool.eq_false_or_eq_true (isWS b) with hb | hb
                  · exact absurd ⟨ha, hb⟩ hab
                  · exact hb
                rw [if_neg (by simp [hb])] at hy'
                exact absurd hy' (by simp [hb])
              · rw [if_neg ha] at hx
                exact absurd hx ha

theorem NoRunWS.tail {a : Char} {l : List Char} (h : NoRunWS (a :: l)) : NoRunWS l :=
  ⟨fun c hc hws => h.1 c (List.mem_cons_of_mem a hc) hws, h.2.tail⟩

theorem collapseWS_of_NoRunWS : ∀ l : List Char, NoRunWS l → collapseWS l = l := by
  intro l
  induction l with
  | nil => intro _; rfl
  | cons a l ih =>
      intro h
      cases l with
      | nil =>
          by_cases ha : isWS a = true
          · have : a = ' ' := h.1 a (by simp) ha
            subst this
            simp [collapseWS]
          · simp [collapseWS, ha]
      | cons b rest =>
          have hchain : ¬(isWS a = true ∧ isWS b = true) := by
            have := List.chain'_cons'.mp h.2
            exact this.1 b (by simp)
          have hrw : collapseWS (a :: b :: rest) =
              (if isWS a then ' ' else a) :: collapseWS (b :: rest) := by
            rw [collapseWS, if_neg (by simp [bool_and_false hchain])]
          rw [hrw, ih (NoRunWS.tail h)]
          by_cases ha : isWS a = true
          · have : a = ' ' := h.1 a (by simp) ha
            rw [if_pos ha, this]
          · rw [if_neg ha]

theorem mem_collapseWS : ∀ l : List Char, ∀ c ∈ collapseWS l, c = ' ' ∨ c ∈ l := by
  intro l
  induction l with
  | nil => intro c hc; simp [collapseWS] at hc
  | cons a l ih =>
      cases l with
      | nil =>
          intro c hc
          by_cases ha : isWS a = true <;> simp [collapseWS, ha] at hc <;> simp [hc]
      | cons b rest =>
          intro c hc
          by_cases hab : isWS a = true ∧ isWS b = true
          · rw [collapseWS, if_pos (by simp [hab.1, hab.2])] at hc
            rcases ih c hc with h | h
            · exact Or.inl h
            · exact Or.inr (List.mem_cons_of_mem a h)
          · rw [collapseWS, if_neg (by simp [bool_and_false hab])] at hc
            rcases List.mem_cons.mp hc with rfl | hc'
            · by_cases ha : isWS a = true
              · simp [ha]
              · simp [ha]
            · rcases ih c hc' with h | h
              · exact Or.inl h
              · exact Or.inr (List.mem_cons_of_mem a h)

theorem NoRunWS_of_suffix {l l' : List Char} (h : l' <:+ l) (hn : NoRunWS l) : NoRunWS l' := by
  obtain ⟨t, rfl⟩ := h
  refine ⟨fun c hc hws => hn.1 c (List.mem_append_right t hc) hws, ?_⟩
  exact (List.chain'_append.mp hn.2).2.1

theorem NoRunWS_reverse {l : List Char} (hn : NoRunWS l) : NoRunWS l.reverse := by
  refine ⟨fun c hc hws => hn.1 c (List.mem_reverse.mp hc) hws, ?_⟩
  rw [List.chain'_reverse]
  exact hn.2.imp (fun a b hab => fun ⟨h1, h2⟩ => hab ⟨h2, h1⟩)

theorem NoRunWS_pyStrip {l : List Char} (hn : NoRunWS l) : NoRunWS (pyStrip l) := by
  unfold pyStrip
  have h1 : NoRunWS (l.dropWhile isWS) := NoRunWS_of_suffix (List.dropWhile_suffix isWS) hn
  have h2 : NoRunWS ((l.dropWhile isWS).reverse) := NoRunWS_reverse h1
  have h3 : NoRunWS (((l.dropWhile isWS).reverse).dropWhile isWS) :=
    NoRunWS_of_suffix (List.dropWhile_suffix isWS) h2
  exact NoRunWS_reverse h3

theorem pyStrip_sublist (l : List Char) : List.Sublist (pyStrip l) l := by
  unfold pyStrip
  have h1 : List.Sublist (l.dropWhile isWS) l := (List.dropWhile_suffix isWS).sublist
  have h2 : List.Sublist (((l.dropWhile isWS).reverse).dropWhile isWS)
      ((l.dropWhile isWS).reverse) :=
    (List.dropWhile_suffix isWS).sublist
  have h3 := h2.reverse
  rw [List.reverse_reverse] at h3
  exact h3.trans h1

theorem head_dropWhile_false (p : Char → Bool) :
    ∀ l : List Char, ∀ c, ((List.dropWhile p l).head? = some c) → p c = false := by
  intro l
  induction l with
  | nil => intro c hc; simp [List.dropWhile] at hc
  | cons a t ih =>
      intro c hc
      by_cases ha : p a = true
      · rw [List.dropWhile_cons, if_pos ha] at hc
        exact ih c hc
      · rw [List.dropWhile_cons, if_neg ha] at hc
        simp at hc
        subst hc
        exact Bool.eq_false_iff.mpr ha

theorem getLast_dropWhile (p : Char → Bool) :
    ∀ l : List Char, List.dropWhile p l ≠ [] →
      (List.dropWhile p l).getLast? = l.getLast? := by
  intro l
  induction l with
  | nil => intro h; simp [List.dropWhile] at h
  | cons a t ih =>
      intro h
      by_cases ha : p a = true
      · rw [List.dropWhile_cons, if_pos ha] at h ⊢
        have ht : t ≠ [] := by
          intro he; rw [he] at h; simp [List.dropWhile] at h
        rw [ih h]
        cases t with
        | nil => exact absurd rfl ht
        | cons b t' => rw [List.getLast?_cons_cons]
      · rw [List.dropWhile_cons, if_neg ha]

theorem dropWhile_self_of_head {p : Char → Bool} {l : List Char}
    (h : ∀ c, l.head? = some c → p c = false) : List.dropWhile p l = l := by
  cases l with
  | nil => rfl
  | cons a t =>
      rw [List.dropWhile_cons, if_neg (by simp [h a rfl])]

theorem pyStrip_idem (l : List Char) : pyStrip (pyStrip l) = pyStrip l := by
  by_cases h0 : (((l.dropWhile isWS).reverse).dropWhile isWS) = []
  · unfold pyStrip
    rw [h0]
    simp [List.dropWhile]
  · have hfront : (pyStrip l).dropWhile isWS = pyStrip l := by
      apply dropWhile_self_of_head
      intro c hc
      unfold pyStrip at hc
      rw [List.head?_reverse] at hc
      rw [getLast_dropWhile isWS _ h0, List.getLast?_reverse] at hc
      exact head_dropWhile_false isWS _ c hc
    have hback : ((pyStrip l).reverse).dropWhile isWS = (pyStrip l).reverse := by
      apply dropWhile_self_of_head
      intro c hc
      unfold pyStrip at hc
      rw [List.reverse_reverse] at hc
      exact head_dropWhile_false isWS _ c hc
    show (((pyStrip l).dropWhile isWS).reverse.dropWhile isWS).reverse = pyStrip l
    rw [hfront, hback, List.reverse_reverse]

theorem star_not_mem_collapseWS {l : List Char} (h : '*' ∉ l) : '*' ∉ collapseWS l := by
  intro hc
  rcases mem_collapseWS l '*' hc with he | he
  · exact absurd he (by decide)
  · exact h he

theorem removeStar_eq_self {l : List Char} (h : '*' ∉ l) : removeStar l = l := by
  unfold removeStar
  rw [List.filter_eq_self]
  intro a ha
  simp only [ne_eq, decide_eq_true_eq]
  intro he
  subst he
  exact h ha

theorem categorize_eq_spec : ∀ m, auto_categorize_transaction m = specCategorize m := by
  intro m
  simp only [auto_categorize_transaction, specCategorize, CategoryRules, firstCategory]

theorem patternsToTry_eq_specLookup : ∀ sender, patternsToTry sender = specLookup sender := by
  intro sender
  cases sender with
  | none => rfl
  | some s =>
      by_cases hs : s = ""
      · subst hs; decide
      · simp only [patternsToTry, specLookup, if_neg hs]
        have hf : SMS_PATTERNS.filter (fun kv => subOf kv.1.data (lowerStr s).data) =
            SMS_PATTERNS.filter (fun kv => subOf (lowerStr kv.1).data (lowerStr s).data) := by
          apply List.filter_congr
          intro kv hkv
          fin_cases hkv <;> rfl
        rw [hf]

theorem first_match_wins (p : Regex) (rest : List Regex) (msg : List Char) (today : String)
    (h : searchR p msg ≠ none) :
    tryPatterns (p :: rest) msg today = tryPatterns [p] msg today := by
  obtain ⟨caps, hc⟩ := Option.ne_none_iff_exists.mp h
  simp [tryPatterns, ← hc]

theorem patternsToTry_mem : ∀ (sender : Option String) (p : Regex), p ∈ patternsToTry sender →
    p ∈ [sbiP, hdfcP, iciciP, axisP, genericP] := by
  intro sender p hp
  cases sender with
  | none =>
      simp [patternsToTry] at hp
      simp [hp]
  | some s =>
      by_cases hs : s = ""
      · simp [patternsToTry, hs] at hp
        simp [hp]
      · simp only [patternsToTry, if_neg hs] at hp
        rcases List.mem_append.mp hp with h | h
        · obtain ⟨kv, hkv, rfl⟩ := List.mem_map.mp h
          have hm := List.mem_of_mem_filter hkv
          fin_cases hm <;> simp
        · simp at h
          simp [h]

theorem searchR_nil_eq_none : ∀ p ∈ [sbiP, hdfcP, iciciP, axisP, genericP],
    searchR p ([] : List Char) = none := by
  intro p hp
  fin_cases hp <;> decide

theorem tryPatterns_nil_input : ∀ pats : List Regex,
    (∀ p ∈ pats, searchR p ([] : List Char) = none) →
    ∀ today, tryPatterns pats [] today = none := by
  intro pats
  induction pats with
  | nil => intro _ _; rfl
  | cons p rest ih =>
      intro h today
      have hp := h p (by simp)
      rw [tryPatterns, hp]
      exact ih (fun q hq => h q (by simp [hq])) today

theorem parseAmount_nonneg : ∀ (s : List Char) (q : ℚ), parseAmount s = some q → 0 ≤ q := by
  intro s q h
  simp only [parseAmount] at h
  split at h
  · exact absurd h (by simp)
  · split at h
    · simp only [Option.some.injEq] at h
      subst h
      positivity
    · split at h
      · simp only [Option.some.injEq] at h
        subst h
        positivity
      · exact absurd h (by simp)
    · exact absurd h (by simp)

theorem auto_categorize_ne_empty : ∀ m, auto_categorize_transaction m ≠ "" := by
  intro m
  simp only [auto_categorize_transaction]
  split
  · decide
  · split
    · decide
    · split
      · decide
      · split
        · decide
        · decide

theorem tryPatterns_some : ∀ (pats : List Regex) (msg : List Char) (today : String)
    (c : Candidate), tryPatterns pats msg today = some c →
    ∃ caps, candidateOfMatch caps today = some c := by
  intro pats
  induction pats with
  | nil => intro msg today c h; exact absurd h (by simp [tryPatterns])
  | cons p rest ih =>
      intro msg today c h
      rw [tryPatterns] at h
      cases hs : searchR p msg with
      | some caps => rw [hs] at h; exact ⟨caps, h⟩
      | none => rw [hs] at h; exact ih msg today c h

theorem candidateOfMatch_props : ∀ (caps : Caps) (today : String) (c : Candidate),
    candidateOfMatch caps today = some c →
    0 ≤ c.amount ∧ c.type = "expense" ∧ c.category ≠ "" ∧ c.source = "sms" ∧
      c.date = today := by
  intro caps today c h
  obtain ⟨c1, c2⟩ := caps
  cases c1 with
  | none => exact absurd h (by simp [candidateOfMatch])
  | some g1 =>
      cases c2 with
      | none => exact absurd h (by simp [candidateOfMatch])
      | some g2 =>
          simp only [candidateOfMatch] at h
          cases hp : parseAmount g1 with
          | none => rw [hp] at h; exact absurd h (by simp)
          | some amt =>
              rw [hp] at h
              simp only [Option.some.injEq] at h
              subst h
              exact ⟨parseAmount_nonneg g1 amt hp, rfl, auto_categorize_ne_empty _, rfl, rfl⟩

theorem lookup_category_ne_empty {service : String} {cfg : ServiceConfig}
    (h : PAYMENT_SERVICES.lookup service = some cfg) : cfg.category ≠ "" := by
  simp only [PAYMENT_SERVICES, List.lookup] at h
  split at h
  · simp only [Option.some.injEq] at h; subst h; decide
  · split at h
    · simp only [Option.some.injEq] at h; subst h; decide
    · split at h
      · simp only [Option.some.injEq] at h; subst h; decide
      · exact absurd h (by simp)

/-- Unknown service, general form: whatever the payload, a service key
outside `PAYMENT_SERVICES` makes `payment_webhook` produce the 500
re-raise of the caught 400 `HTTPException`. -/
theorem webhook_unknown_500_general (service : String) (w : WebhookData)
    (today newId createdAt : String) (h : PAYMENT_SERVICES.lookup service = none) :
    payment_webhook service w today newId createdAt =
      .error ⟨500, "400: Unsupported payment service"⟩ := by
  simp [payment_webhook, payment_webhook_try, h]
  rfl

/-! ## Claim theorems -/

/-- C1 (code bug): the claim says an unknown webhook service key is
rejected with a client-error (HTTP 400-class) response.  The handler
does raise `HTTPException(400, "Unsupported payment service")`, but that
raise happens inside its own `try` block, whose blanket
`except Exception` catches the `HTTPException` (a subclass of
`Exception`) and re-raises it as HTTP 500.  At the failing input
(service `"paytm"`, an otherwise valid payload), the response is a 500
server fault carrying `str(e)` of the swallowed 400 — not a 400. -/
theorem webhook_unknown_service_rejected_with_500 :
    payment_webhook "paytm" ⟨"paytm", "TXN9", 250, "Cafe X", "2024-05-12T10:00:00"⟩
        "2024-05-12" "id-1" "ts-1" = .error ⟨500, "400: Unsupported payment service"⟩ ∧
    payment_webhook "paytm" ⟨"paytm", "TXN9", 250, "Cafe X", "2024-05-12T10:00:00"⟩
        "2024-05-12" "id-1" "ts-1" ≠ .error ⟨400, "Unsupported payment service"⟩ := by
  have h : payment_webhook "paytm" ⟨"paytm", "TXN9", 250, "Cafe X", "2024-05-12T10:00:00"⟩
      "2024-05-12" "id-1" "ts-1" = .error ⟨500, "400: Unsupported payment service"⟩ := rfl
  refine ⟨h, ?_⟩
  rw [h]
  intro hc
  simp at hc

/-- C2 (counterexample): merchant normalization — collapse whitespace
runs, then remove `'*'`, then trim — is not idempotent: on `"a * b"`
the first pass yields `"a  b"` (removing the star joins two spaces),
and a second pass collapses them to `"a b"`. -/
theorem normalizeMerchant_not_idempotent_counterexample :
    normalizeMerchant (normalizeMerchant "a * b") ≠ normalizeMerchant "a * b" := by
  decide

/-- C2 (amended): the normalization is idempotent on every input that
contains no literal `'*'` character; removing a star between two
whitespace characters is the only way a second pass can differ. -/
theorem normalizeMerchant_idempotent_of_no_star (x : String) (h : '*' ∉ x.data) :
    normalizeMerchant (normalizeMerchant x) = normalizeMerchant x := by
  have hst1 : '*' ∉ collapseWS x.data := star_not_mem_collapseWS h
  have hNo : NoRunWS (pyStrip (collapseWS x.data)) :=
    NoRunWS_pyStrip (NoRunWS_collapseWS x.data)
  have hstar : '*' ∉ pyStrip (collapseWS x.data) :=
    fun hm => hst1 ((pyStrip_sublist _).subset hm)
  have key : pyStrip (removeStar (collapseWS (pyStrip (removeStar (collapseWS x.data))))) =
      pyStrip (removeStar (collapseWS x.data)) := by
    rw [removeStar_eq_self hst1, collapseWS_of_NoRunWS _ hNo, removeStar_eq_self hstar]
    exact pyStrip_idem _
  unfold normalizeMerchant
  exact congrArg String.mk key

/-- C2 witness: the amended idempotence at the star-free input
`" a  b "`. -/
theorem normalizeMerchant_idempotent_of_no_star_witness :
    normalizeMerchant (normalizeMerchant " a  b ") = normalizeMerchant " a  b " :=
  normalizeMerchant_idempotent_of_no_star " a  b " (by decide)

/-- C3: the pattern sequence tried for a sender is exactly the spec's
description (every registry rule whose bank key occurs case-insensitively
in the sender, in table-declaration order, with the generic fallback
appended last; only the generic rule when the sender is absent), and the
extraction loop uses the first pattern whose search succeeds — its result
does not depend on the remaining patterns. -/
theorem pattern_sequence_and_first_match_wins :
    (∀ sender, patternsToTry sender = specLookup sender) ∧
    (∀ (p : Regex) (rest : List Regex) (msg : List Char) (today : String),
      searchR p msg ≠ none →
        tryPatterns (p :: rest) msg today = tryPatterns [p] msg today) :=
  ⟨patternsToTry_eq_specLookup, first_match_wins⟩

/-- C3 witness: the generic pattern matches `"Rs.9 paid to X"`, so adding
further patterns after it cannot change the result. -/
theorem pattern_sequence_and_first_match_wins_witness :
    tryPatterns [genericP, sbiP] "Rs.9 paid to X".data "2024-05-12" =
      tryPatterns [genericP] "Rs.9 paid to X".data "2024-05-12" :=
  pattern_sequence_and_first_match_wins.2 genericP [sbiP] "Rs.9 paid to X".data "2024-05-12"
    (by decide)

/-- C4: the categorizer is total and agrees everywhere with the spec's
description — first rule in the fixed order Food → Transport → Shopping
→ Bills whose keyword occurs in the lower-cased merchant wins, `"Others"`
otherwise — and `"Swiggy Petrol Pump"` (Food and Transport keywords both
present) classifies as Food. -/
theorem categorizer_total_ordered_first_match :
    (∀ m, auto_categorize_transaction m = specCategorize m) ∧
    auto_categorize_transaction "Swiggy Petrol Pump" = "Food" :=
  ⟨categorize_eq_spec, by decide⟩

/-- C5 (counterexample): the claim says a matched pattern whose amount
group does not parse is treated as a failed match and the loop continues
with the next pattern.  In the source, `float(...)` raising inside the
loop is caught by the function-level `except`, which returns `None` for
the whole extraction.  With a pattern whose group 1 is non-numeric
(`badAmountPat`) followed by the generic pattern, on an input the generic
pattern alone would extract, the loop yields no-match instead of
continuing. -/
theorem malformed_amount_continue_counterexample :
    searchR badAmountPat "Rs 5 stuff paid to SHOP".data =
      some (some "Rs 5 stuff".data, some "SHOP".data) ∧
    parseAmount "Rs 5 stuff".data = none ∧
    tryPatterns [badAmountPat, genericP] "Rs 5 stuff paid to SHOP".data "2024-05-12" = none ∧
    tryPatterns [genericP] "Rs 5 stuff paid to SHOP".data "2024-05-12" ≠ none :=
  ⟨by decide, by decide, by decide, by decide⟩

/-- C5 (amended): when a pattern matches but its amount group fails to
parse, the whole extraction returns no-match at once — no exception
escapes, and the remaining patterns are not attempted.  (With the five
registry patterns this situation is unreachable, since their group 1 is
`(\d+(?:\.\d{2})?)`, which always parses.) -/
theorem malformed_amount_aborts_extraction (p : Regex) (rest : List Regex)
    (msg : List Char) (today : String) (g1 g2 : List Char)
    (h : searchR p msg = some (some g1, some g2)) (ha : parseAmount g1 = none) :
    tryPatterns (p :: rest) msg today = none := by
  simp [tryPatterns, h, candidateOfMatch, ha]

/-- C5 witness: the amended behavior at the concrete pattern list and
message of the counterexample. -/
theorem malformed_amount_aborts_extraction_witness :
    tryPatterns [badAmountPat, genericP] "Rs 5 stuff paid to SHOP".data "2024-05-13" = none :=
  malformed_amount_aborts_extraction badAmountPat [genericP] "Rs 5 stuff paid to SHOP".data
    "2024-05-13" "Rs 5 stuff".data "SHOP".data (by decide) (by decide)

/-- C6: the extractor is total — it always returns either a candidate or
no-match (every internal condition, including the catch-all handler of
lines 93/132–134, resolves to a local `None`), and a message that is
empty after trimming yields no-match. -/
theorem extractor_total_empty_yields_no_match :
    ∀ (msg : String) (sender : Option String) (today : String),
      (pyStrip msg.data = [] → parse_sms_transaction msg sender today = none) ∧
      (parse_sms_transaction msg sender today = none ∨
        ∃ c, parse_sms_transaction msg sender today = some c) := by
  intro msg sender today
  constructor
  · intro h
    unfold parse_sms_transaction
    rw [h]
    exact tryPatterns_nil_input _
      (fun p hp => searchR_nil_eq_none p (patternsToTry_mem sender p hp)) today
  · cases h : parse_sms_transaction msg sender today with
    | none => exact Or.inl rfl
    | some c => exact Or.inr ⟨c, rfl⟩

/-- C6 witness: a whitespace-only message yields no-match. -/
theorem extractor_total_empty_yields_no_match_witness :
    parse_sms_transaction "   " none "2024-05-12" = none :=
  (extractor_total_empty_yields_no_match "   " none "2024-05-12").1 (by decide)

/-- C7: the concrete scenario — message
`"Rs.450.00 debited at SWIGGY BANGALORE on 12-05-24"` with sender
`"HDFC-Bank"` — extracts amount 450, merchant `"SWIGGY BANGALORE"`,
category `"Food"`, type `"expense"`, source `"sms"` (the hdfc pattern
itself fails on the `"Rs."` prefix; the generic fallback matches). -/
theorem hdfc_swiggy_scenario (today : String) :
    parse_sms_transaction "Rs.450.00 debited at SWIGGY BANGALORE on 12-05-24"
        (some "HDFC-Bank") today =
      some { amount := 450, description := "Payment to SWIGGY BANGALORE",
             merchant := "SWIGGY BANGALORE", category := "Food", type := "expense",
             date := today, source := "sms" } := by
  have h : parse_sms_transaction "Rs.450.00 debited at SWIGGY BANGALORE on 12-05-24"
      (some "HDFC-Bank") today =
      some { amount := ((450:ℕ):ℚ) + ((0:ℕ):ℚ)/10^2,
             description := "Payment to SWIGGY BANGALORE", merchant := "SWIGGY BANGALORE",
             category := "Food", type := "expense", date := today, source := "sms" } := rfl
  rw [h]
  norm_num

/-- C8: for a service key present in `PAYMENT_SERVICES`, the webhook
produces a transaction whose description is
`"{display name} payment to {merchant}"`, whose date is the current
calendar date (the external timestamp is kept only in the provenance
block), whose category is the service's fixed category, whose type is
`"expense"`, and whose provenance block carries the service key, the
external transaction id, the merchant and the external timestamp. -/
theorem webhook_known_service_response (service : String) (w : WebhookData)
    (today newId createdAt : String) (cfg : ServiceConfig)
    (h : PAYMENT_SERVICES.lookup service = some cfg) :
    payment_webhook service w today newId createdAt =
      .ok { success := true
            message := "Transaction created from " ++ cfg.name ++ " webhook"
            transaction :=
              { id := newId
                amount := w.amount
                description := cfg.name ++ " payment to " ++ w.merchant
                date := today
                category := cfg.category
                type := "expense"
                created_at := createdAt
                webhook_data := some ⟨service, w.transaction_id, w.merchant, w.timestamp⟩ } } := by
  simp [payment_webhook, payment_webhook_try, h]

/-- C8 witness: the spec's zomato scenario (amount 300, merchant
`"Zomato Restaurant"`, external id `"TXN123"`). -/
theorem webhook_known_service_response_witness :
    payment_webhook "zomato"
        ⟨"zomato", "TXN123", 300, "Zomato Restaurant", "2024-05-10T08:00:00"⟩
        "2024-05-12" "id-1" "ts-1" =
      .ok { success := true
            message := "Transaction created from Zomato webhook"
            transaction :=
              { id := "id-1"
                amount := 300
                description := "Zomato payment to Zomato Restaurant"
                date := "2024-05-12"
                category := "Food"
                type := "expense"
                created_at := "ts-1"
                webhook_data :=
                  some ⟨"zomato", "TXN123", "Zomato Restaurant", "2024-05-10T08:00:00"⟩ } } :=
  webhook_known_service_response "zomato" _ "2024-05-12" "id-1" "ts-1" _ rfl

/-- C9 (counterexample): the claim says every produced transaction has a
strictly positive amount, but the SMS `"Rs.0 debited at SHOP."` matches
the generic pattern with amount group `"0"` and yields a candidate with
amount 0. -/
theorem zero_amount_sms_counterexample :
    parse_sms_transaction "Rs.0 debited at SHOP." none "2024-05-12" =
      some { amount := 0, description := "Payment to SHOP", merchant := "SHOP",
             category := "Others", type := "expense", date := "2024-05-12",
             source := "sms" } ∧
    ¬ (0 < (0 : ℚ)) :=
  ⟨rfl, by simp⟩

/-- C9 (amended): every SMS candidate has a non-negative amount (the
amount group is a digit run with optional two-digit fraction, so zero is
the only non-positive value possible), type `"expense"` and a non-empty
category; every accepted webhook transaction carries the payload amount
unchanged (strictly positive whenever the payload amount is), type
`"expense"` and the service's non-empty fixed category. -/
theorem transaction_invariants_amended :
    (∀ msg sender today c, parse_sms_transaction msg sender today = some c →
        0 ≤ c.amount ∧ c.type = "expense" ∧ c.category ≠ "") ∧
    (∀ service w today newId createdAt r,
        payment_webhook service w today newId createdAt = .ok r →
          r.transaction.amount = w.amount ∧ (0 < w.amount → 0 < r.transaction.amount) ∧
          r.transaction.type = "expense" ∧ r.transaction.category ≠ "") := by
  constructor
  · intro msg sender today c h
    obtain ⟨caps, hc⟩ := tryPatterns_some _ _ _ _ h
    obtain ⟨h1, h2, h3, _, _⟩ := candidateOfMatch_props _ _ _ hc
    exact ⟨h1, h2, h3⟩
  · intro service w today newId createdAt r h
    unfold payment_webhook payment_webhook_try at h
    cases hl : PAYMENT_SERVICES.lookup service with
    | none => rw [hl] at h; exact absurd h (by simp)
    | some cfg =>
        rw [hl] at h
        simp only [Except.ok.injEq] at h
        subst h
        exact ⟨rfl, fun hp => hp, rfl, lookup_category_ne_empty hl⟩

/-- C9 witness: the invariants at a concrete SMS extraction
(`"Rs.5 paid to SHOP."`) and a concrete accepted gpay webhook. -/
theorem transaction_invariants_amended_witness :
    (0 ≤ (Candidate.mk 5 "Payment to SHOP" "SHOP" "Others" "expense" "2024-05-12" "sms").amount ∧
     (Candidate.mk 5 "Payment to SHOP" "SHOP" "Others" "expense" "2024-05-12" "sms").type =
       "expense" ∧
     (Candidate.mk 5 "Payment to SHOP" "SHOP" "Others" "expense" "2024-05-12" "sms").category ≠
       "") ∧
    ((WebhookResponse.mk true "Transaction created from Google Pay webhook"
        (StoredTransaction.mk "id-2" 7 "Google Pay payment to M" "2024-05-12" "Transfer"
          "expense" "ts-2"
          (some ⟨"gpay", "T1", "M", "2024-05-11T00:00:00"⟩))).transaction.amount =
        (WebhookData.mk "gpay" "T1" 7 "M" "2024-05-11T00:00:00").amount ∧
     (0 < (WebhookData.mk "gpay" "T1" 7 "M" "2024-05-11T00:00:00").amount →
       0 < (WebhookResponse.mk true "Transaction created from Google Pay webhook"
        (StoredTransaction.mk "id-2" 7 "Google Pay payment to M" "2024-05-12" "Transfer"
          "expense" "ts-2"
          (some ⟨"gpay", "T1", "M", "2024-05-11T00:00:00"⟩))).transaction.amount) ∧
     (WebhookResponse.mk true "Transaction created from Google Pay webhook"
        (StoredTransaction.mk "id-2" 7 "Google Pay payment to M" "2024-05-12" "Transfer"
          "expense" "ts-2"
          (some ⟨"gpay", "T1", "M", "2024-05-11T00:00:00"⟩))).transaction.type = "expense" ∧
     (WebhookResponse.mk true "Transaction created from Google Pay webhook"
        (StoredTransaction.mk "id-2" 7 "Google Pay payment to M" "2024-05-12" "Transfer"
          "expense" "ts-2"
          (some ⟨"gpay", "T1", "M", "2024-05-11T00:00:00"⟩))).transaction.category ≠ "") :=
  ⟨transaction_invariants_amended.1 "Rs.5 paid to SHOP." none "2024-05-12"
      (Candidate.mk 5 "Payment to SHOP" "SHOP" "Others" "expense" "2024-05-12" "sms") rfl,
   transaction_invariants_amended.2 "gpay"
      (WebhookData.mk "gpay" "T1" 7 "M" "2024-05-11T00:00:00") "2024-05-12" "id-2" "ts-2"
      (WebhookResponse.mk true "Transaction created from Google Pay webhook"
        (StoredTransaction.mk "id-2" 7 "Google Pay payment to M" "2024-05-12" "Transfer"
          "expense" "ts-2"
          (some ⟨"gpay", "T1", "M", "2024-05-11T00:00:00"⟩))) rfl⟩

/-- C10: each pattern's amount group is an unbroken digit run with an
optional two-decimal fraction, so on
`"Rs.1,500 debited at STORE."` (comma thousands separator, no sender)
the generic pattern still matches, capturing only `"1"` as the amount:
the extractor silently returns amount 1 — not 1500. -/
theorem comma_amount_truncated :
    searchR genericP "Rs.1,500 debited at STORE.".data =
      some (some "1".data, some "STORE".data) ∧
    parse_sms_transaction "Rs.1,500 debited at STORE." none "2024-05-12" =
      some { amount := 1, description := "Payment to STORE", merchant := "STORE",
             category := "Shopping", type := "expense", date := "2024-05-12",
             source := "sms" } ∧
    (1 : ℚ) ≠ 1500 :=
  ⟨by decide, rfl, by norm_num⟩

end FinTrack
